import Mathlib

/-!
Verification of the flow-scoring core of the mindful-code backend.

The definitions below are a shallow embedding of the Rust sources
`src/backend/src/services/flow.rs` (FlowDetectionEngine),
`src/backend/src/services/ml.rs` (MLInferenceEngine) and
`src/backend/src/models/flow.rs` (data model).  `f32` arithmetic is
modelled over `ℝ`, `Instant` as a real-valued timestamp passed in
explicitly (`now`), and `Duration` as a real-valued span.  Fallibility
of the optional model-backed scoring path is kept (`Except`); the
component-score helpers in the source return `Result` but every path
yields `Ok`, so they are embedded as total functions.
-/

namespace MindfulCode

noncomputable section

/-- Data model of `models/flow.rs::FlowStateData`.  The `session_id`
(Uuid) is dropped: it is never read by the scoring core.  Rust `u64`
and `u32` counters become `ℕ`, `f32` becomes `ℝ`. -/
structure FlowStateData where
  keystroke_intervals : List ℕ
  context_switches : ℕ
  error_events : ℕ
  window_focus_duration : ℕ
  file_modifications : ℕ
  timestamp : ℤ
  typing_velocity : Option ℝ
  pause_patterns : Option (List ℕ)

/-- Embeds `models/flow.rs::UserFlowPreferences`. -/
structure UserFlowPreferences where
  sensitivity_level : ℝ
  notification_threshold : ℝ
  focus_mode_enabled : Bool
  break_reminders_enabled : Bool

/-- Embeds `models/flow.rs::FlowMetrics`: the five component scores. -/
structure FlowMetrics where
  rhythm_score : ℝ
  focus_score : ℝ
  consistency_score : ℝ
  error_penalty : ℝ
  velocity_score : ℝ

/-- Embeds `models/flow.rs::FlowStateResult`.  The diagnostic
`analysis_time_ms` field (wall-clock measurement, never gating
correctness) is omitted. -/
structure FlowStateResult where
  is_in_flow : Bool
  flow_intensity : ℝ
  flow_duration_ms : ℝ
  confidence : ℝ
  recommendations : List String
  metrics : FlowMetrics

/-- The feature vector handed to `MLInferenceEngine::predict_flow_state`
(`[f32; 5]` in the source).  Field names follow the destructuring in
`ml.rs::rule_based_prediction`; note that the caller in
`flow.rs::analyze_flow_state` fills the `error_penalty` slot with
`1.0 - error_penalty`. -/
structure Features where
  rhythm_score : ℝ
  focus_score : ℝ
  consistency_score : ℝ
  error_penalty : ℝ
  velocity_score : ℝ

/-- Embeds `ml.rs::FeatureScaler::normalize` with the constants from
`FeatureScaler::new` (means `[0.6, 0.7, 0.65, 0.1, 0.5]`, stds
`[0.25, 0.3, 0.28, 0.15, 0.3]`), written field-wise. -/
def normalize (f : Features) : Features :=
  ⟨(f.rhythm_score - 0.6) / 0.25,
   (f.focus_score - 0.7) / 0.3,
   (f.consistency_score - 0.65) / 0.28,
   (f.error_penalty - 0.1) / 0.15,
   (f.velocity_score - 0.5) / 0.3⟩

/-- Embeds `ml.rs::MLInferenceEngine`.  The optional neural model (candle
tensors: three ReLU layers and a sigmoid) is abstracted as a partial
real-valued function on the normalized features: `none` models an
inference failure at any of the fallible tensor steps. -/
structure MLInferenceEngine where
  model : Option (Features → Option ℝ)

/-- Embeds `ml.rs::rule_based_prediction`: fixed-weight combination with the
non-linear adjustment and the final clamp.  Note the source computes
`(1.0 - error_penalty) * 0.10` on a slot that the caller in `flow.rs`
already filled with `1.0 - error_penalty`. -/
def rule_based_prediction (features : Features) : ℝ :=
  let base_score := features.rhythm_score * 0.35
    + features.focus_score * 0.25
    + features.consistency_score * 0.20
    + (1 - features.error_penalty) * 0.10
    + features.velocity_score * 0.10
  let adjusted_score :=
    if base_score > 0.8 then base_score + (base_score - 0.8) * 0.5
    else if base_score < 0.3 then base_score * 0.8
    else base_score
  min (max adjusted_score 0) 1

/-- Embeds `ml.rs::MLInferenceEngine::predict_flow_state`: rule-based fallback
when no model is attached; otherwise normalize the features, run the
model (which may fail) and clamp the prediction to `[0, 1]`. -/
def predict_flow_state (e : MLInferenceEngine) (features : Features) :
    Except Unit ℝ :=
  match e.model with
  | none => Except.ok (rule_based_prediction features)
  | some m =>
    match m (normalize features) with
    | none => Except.error ()
    | some prediction => Except.ok (min (max prediction 0) 1)

/-- Embeds `flow.rs::FlowDetectionEngine`: the per-user analyzer state.
`VecDeque` ring buffers become lists with the front at the head,
`Instant` timestamps become reals, `Duration` a real span. -/
structure FlowDetectionEngine where
  keystroke_buffer : List ℕ
  flow_start_time : Option ℝ
  current_intensity : ℝ
  ml_engine : MLInferenceEngine
  last_analysis : ℝ
  flow_session_count : ℕ
  total_flow_time : ℝ
  confidence_history : List ℝ

/-- Embeds `flow.rs::FlowDetectionEngine::new`, created at time `now`
(`last_analysis: Instant::now()`). -/
def engineNew (now : ℝ) : FlowDetectionEngine :=
  ⟨[], none, 0, ⟨none⟩, now, 0, 0, []⟩

/-- One iteration of the ring-buffer update loop in
`analyze_flow_state`: `push_back`, then `pop_front` if the length
exceeds 100. -/
def push_interval (buffer : List ℕ) (x : ℕ) : List ℕ :=
  if 100 < (buffer ++ [x]).length then (buffer ++ [x]).tail
  else buffer ++ [x]

/-- The full ring-buffer update loop over a sample's intervals. -/
def push_intervals (buffer : List ℕ) (intervals : List ℕ) : List ℕ :=
  intervals.foldl push_interval buffer

/-- The confidence-history update in `analyze_flow_state`:
`push_back`, then `pop_front` if the length exceeds 50. -/
def push_confidence (history : List ℝ) (c : ℝ) : List ℝ :=
  if 50 < (history ++ [c]).length then (history ++ [c]).tail
  else history ++ [c]

/-- The mean of an interval list as `f32` arithmetic over `ℝ`
(`intervals.iter().sum::<u64>() as f32 / intervals.len() as f32`). -/
def interval_mean (intervals : List ℕ) : ℝ :=
  (intervals.sum : ℝ) / intervals.length

/-- The population variance computed in `analyze_keystroke_rhythm` and
`calculate_coefficient_of_variation`. -/
def interval_variance (intervals : List ℕ) : ℝ :=
  (intervals.map (fun x => ((x : ℝ) - interval_mean intervals) ^ 2)).sum
    / intervals.length

/-- Embeds `flow.rs::calculate_coefficient_of_variation`. -/
def calculate_coefficient_of_variation (intervals : List ℕ) : ℝ :=
  if intervals.length < 2 then 1
  else if interval_mean intervals > 0 then
    Real.sqrt (interval_variance intervals) / interval_mean intervals
  else 1

/-- The tiered base score of `analyze_keystroke_rhythm` (the `score`
let-binding).  Rust match arms with guards fall through to the next
arm, hence the nested conditionals. -/
def rhythm_base (mean_interval coefficient_of_variation : ℝ) : ℝ :=
  if 80 ≤ mean_interval ∧ mean_interval ≤ 200 ∧
      coefficient_of_variation < 0.3 then 0.95
  else if 50 ≤ mean_interval ∧ mean_interval ≤ 300 ∧
      coefficient_of_variation < 0.5 then 0.80
  else if 30 ≤ mean_interval ∧ mean_interval ≤ 500 ∧
      coefficient_of_variation < 0.8 then 0.60
  else 0.20

/-- The sustained-rhythm bonus of `analyze_keystroke_rhythm` (the
`sustained_bonus` let-binding; source guard: `intervals.len() > 20`,
recent window `&intervals[len - 20..]`). -/
def rhythm_sustained_bonus (intervals : List ℕ)
    (coefficient_of_variation : ℝ) : ℝ :=
  if 20 < intervals.length then
    if calculate_coefficient_of_variation
        (intervals.drop (intervals.length - 20))
        < coefficient_of_variation - 0.1 then 0.1 else 0
  else 0

/-- Embeds `flow.rs::analyze_keystroke_rhythm`: tiered score on the sample's
own intervals plus the sustained-rhythm bonus, clamped by `.min(1.0)`;
0 below 3 intervals and on a zero mean. -/
def analyze_keystroke_rhythm (intervals : List ℕ) : ℝ :=
  if intervals.length < 3 then 0
  else if interval_mean intervals > 0 then
    min (rhythm_base (interval_mean intervals)
          (Real.sqrt (interval_variance intervals) / interval_mean intervals)
        + rhythm_sustained_bonus intervals
          (Real.sqrt (interval_variance intervals) / interval_mean intervals))
      1
  else 0

/-- The time-based focus bonus inside `flow.rs::calculate_focus_score`
(the `time_bonus` let-binding): zero up to 10 s of elapsed time,
`min (t / 60) 0.2` beyond. -/
def focus_time_bonus (time_since_last : ℝ) : ℝ :=
  if time_since_last > 10 then min (time_since_last / 60) 0.2 else 0

/-- Embeds `flow.rs::calculate_focus_score`.  `time_since_last` stands for
`self.last_analysis.elapsed()`, supplied by the caller. -/
def calculate_focus_score (context_switches : ℕ) (time_since_last : ℝ) : ℝ :=
  min (Real.exp (-0.2 * context_switches) + focus_time_bonus time_since_last) 1

/-- The file-modification term of `flow.rs::calculate_consistency_score`
(the `mod_consistency` let-binding).  In Rust a zero
`window_focus_duration` makes `mod_rate` infinite, matching no band; in
Lean division by zero yields 0, likewise matching no band. -/
def mod_consistency (file_modifications : ℕ) (window_focus_duration : ℕ) : ℝ :=
  if 0 < file_modifications then
    if 0.5 ≤ (file_modifications : ℝ) / (window_focus_duration : ℝ) * 1000 ∧
        (file_modifications : ℝ) / (window_focus_duration : ℝ) * 1000 ≤ 2
      then 0.2
    else if 0.1 ≤ (file_modifications : ℝ) / (window_focus_duration : ℝ) * 1000 ∧
        (file_modifications : ℝ) / (window_focus_duration : ℝ) * 1000 ≤ 0.5
      then 0.1
    else 0
  else 0

/-- The improvement-rewarding part of `calculate_consistency_score`
(the `consistency_score` let-binding): one minus the smaller of the
recent-window and whole-buffer coefficients of variation, floored at
0. -/
def consistency_base (buffer : List ℕ) : ℝ :=
  if calculate_coefficient_of_variation (buffer.reverse.take 20)
      < calculate_coefficient_of_variation buffer then
    max (1 - calculate_coefficient_of_variation (buffer.reverse.take 20)) 0
  else max (1 - calculate_coefficient_of_variation buffer) 0

/-- Embeds `flow.rs::calculate_consistency_score`, reading the engine's
keystroke buffer (already updated with the sample's intervals). -/
def calculate_consistency_score (buffer : List ℕ) (data : FlowStateData) : ℝ :=
  if buffer.length < 10 then 0.5
  else
    min (consistency_base buffer +
      mod_consistency data.file_modifications data.window_focus_duration) 1

/-- Embeds `flow.rs::calculate_error_penalty`: logarithmic penalty. -/
def calculate_error_penalty (error_events : ℕ) : ℝ :=
  if error_events = 0 then 0 else Real.log error_events / 10

/-- Embeds `flow.rs::calculate_velocity_score`. -/
def calculate_velocity_score (data : FlowStateData) : ℝ :=
  match data.typing_velocity with
  | some velocity =>
    if 200 ≤ velocity ∧ velocity ≤ 400 then 0.9
    else if 100 ≤ velocity ∧ velocity ≤ 200 then 0.7
    else if 400 ≤ velocity ∧ velocity ≤ 600 then 0.8
    else 0.5
  | none =>
    if data.keystroke_intervals ≠ [] then
      let avg_interval_ms :=
        (data.keystroke_intervals.sum : ℝ) / data.keystroke_intervals.length
      let chars_per_minute := 60000 / avg_interval_ms
      if 200 ≤ chars_per_minute ∧ chars_per_minute ≤ 400 then 0.9
      else if 100 ≤ chars_per_minute ∧ chars_per_minute ≤ 600 then 0.7
      else 0.5
    else 0.5

/-- Embeds `flow.rs::calculate_flow_duration`: the four-way transition on
(`is_in_flow`, `flow_start_time`), returning the reported duration and
mutating the session-accounting fields. -/
def calculate_flow_duration (is_in_flow : Bool) (s : FlowDetectionEngine)
    (now : ℝ) : ℝ × FlowDetectionEngine :=
  match is_in_flow, s.flow_start_time with
  | true, none => (0, { s with flow_start_time := some now })
  | true, some start_time => (now - start_time, s)
  | false, some start_time =>
    (now - start_time,
     { s with total_flow_time := s.total_flow_time + (now - start_time),
              flow_session_count := s.flow_session_count + 1,
              flow_start_time := none })
  | false, none => (0, s)

/-- Embeds `flow.rs::get_average_recent_confidence`: `none` below 3 history
entries, else the mean of the 5 most recent. -/
def get_average_recent_confidence (history : List ℝ) : Option ℝ :=
  if history.length < 3 then none
  else
    let recent := history.reverse.take 5
    some (recent.sum / recent.length)

/-- Embeds `flow.rs::calculate_confidence`: intensity scaled by a data-quality
factor and, when available, by a history-stability factor; clamped. -/
def calculate_confidence (score : ℝ) (data : FlowStateData)
    (history : List ℝ) : ℝ :=
  let data_quality : ℝ :=
    if 10 ≤ data.keystroke_intervals.length then 1
    else if 5 ≤ data.keystroke_intervals.length then 0.8
    else 0.5
  let confidence := score * data_quality
  let confidence :=
    match get_average_recent_confidence history with
    | some avg_recent_confidence =>
      confidence * (1 - |confidence - avg_recent_confidence| * 0.5)
    | none => confidence
  min (max confidence 0) 1

/-- Embeds `flow.rs::update_flow_tracking` (the log statements are no-ops). -/
def update_flow_tracking (s : FlowDetectionEngine) (_is_in_flow : Bool)
    (intensity : ℝ) (now : ℝ) : FlowDetectionEngine :=
  { s with current_intensity := intensity, last_analysis := now }

/-- Embeds `flow.rs::generate_recommendations`: all matching rules fire, in
source order; a single positive message when none fires. -/
def generate_recommendations (score : ℝ) (data : FlowStateData)
    (metrics : FlowMetrics) : List String :=
  let recommendations :=
    (if score < 0.4 then
      ["Consider taking a 2-3 minute break to reset focus"] else [])
    ++ (if 5 < data.context_switches then
      ["Try enabling focus mode or using a single monitor to reduce distractions"]
      else [])
    ++ (if 3 < data.error_events then
      ["Slow down slightly - accuracy and flow go hand in hand"] else [])
    ++ (if metrics.rhythm_score < 0.5 then
      ["Try to maintain a steady typing rhythm for better flow state"] else [])
    ++ (if data.window_focus_duration < 300000 then
      ["Consider working in longer focused blocks for deeper flow states"]
      else [])
    ++ (if metrics.velocity_score < 0.6 then
      ["Your typing pace seems off today - consider warming up or adjusting your setup"]
      else [])
  if recommendations = [] then
    ["Great focus! Keep up the excellent work."]
  else recommendations

/-- The effective sensitivity threshold used in `analyze_flow_state`:
from the preferences, defaulting to 0.7. -/
def effective_sensitivity (p : Option UserFlowPreferences) : ℝ :=
  (p.map (fun q => q.sensitivity_level)).getD 0.7

/-- The engine after the ring-buffer update loop at the top of
`analyze_flow_state` (the state in which an inference failure returns
early). -/
def buffered_engine (s : FlowDetectionEngine) (data : FlowStateData) :
    FlowDetectionEngine :=
  { s with keystroke_buffer :=
      push_intervals s.keystroke_buffer data.keystroke_intervals }

/-- The five component scores computed in `analyze_flow_state`
(`rhythm_score` … `velocity_score`), packaged as the result metrics.
`buffer` is the engine's already-updated keystroke buffer and
`elapsed` the time since the previous analysis. -/
def sample_metrics (buffer : List ℕ) (data : FlowStateData) (elapsed : ℝ) :
    FlowMetrics :=
  ⟨analyze_keystroke_rhythm data.keystroke_intervals,
   calculate_focus_score data.context_switches elapsed,
   calculate_consistency_score buffer data,
   calculate_error_penalty data.error_events,
   calculate_velocity_score data⟩

/-- The feature vector handed to `predict_flow_state` by
`analyze_flow_state`: the component scores with the error penalty slot
inverted (`1.0 - error_penalty`). -/
def sample_features (buffer : List ℕ) (data : FlowStateData) (elapsed : ℝ) :
    Features :=
  ⟨analyze_keystroke_rhythm data.keystroke_intervals,
   calculate_focus_score data.context_switches elapsed,
   calculate_consistency_score buffer data,
   1 - calculate_error_penalty data.error_events,
   calculate_velocity_score data⟩

/-- The successful tail of `analyze_flow_state` (everything after the
combined score is obtained): threshold comparison, session-duration
transition, confidence, state updates, and the assembled result.
`s1` is the engine after the ring-buffer update. -/
def analyze_ok_outcome (s1 : FlowDetectionEngine) (data : FlowStateData)
    (user_preferences : Option UserFlowPreferences) (now : ℝ)
    (combined_score : ℝ) : Except Unit FlowStateResult × FlowDetectionEngine :=
  (Except.ok
    { is_in_flow :=
        decide (effective_sensitivity user_preferences < combined_score)
      flow_intensity := combined_score
      flow_duration_ms :=
        (calculate_flow_duration
          (decide (effective_sensitivity user_preferences < combined_score))
          s1 now).1
      confidence := calculate_confidence combined_score data
        s1.confidence_history
      recommendations := generate_recommendations combined_score data
        (sample_metrics s1.keystroke_buffer data (now - s1.last_analysis))
      metrics := sample_metrics s1.keystroke_buffer data
        (now - s1.last_analysis) },
   { update_flow_tracking
      (calculate_flow_duration
        (decide (effective_sensitivity user_preferences < combined_score))
        s1 now).2
      (decide (effective_sensitivity user_preferences < combined_score))
      combined_score now with
     confidence_history :=
      push_confidence
        (update_flow_tracking
          (calculate_flow_duration
            (decide (effective_sensitivity user_preferences < combined_score))
            s1 now).2
          (decide (effective_sensitivity user_preferences < combined_score))
          combined_score now).confidence_history
        (calculate_confidence combined_score data s1.confidence_history) })

/-- Embeds `flow.rs::FlowDetectionEngine::analyze_flow_state`.  The engine is
threaded explicitly; `now` stands for the `Instant::now()` calls made
during the invocation.  On a model-path inference failure the source
returns early via `?` with the keystroke buffer already updated, which
is mirrored by returning the intermediate state. -/
def analyze_flow_state (s : FlowDetectionEngine) (data : FlowStateData)
    (user_preferences : Option UserFlowPreferences) (now : ℝ) :
    Except Unit FlowStateResult × FlowDetectionEngine :=
  match predict_flow_state (buffered_engine s data).ml_engine
      (sample_features (buffered_engine s data).keystroke_buffer data
        (now - (buffered_engine s data).last_analysis)) with
  | Except.error e => (Except.error e, buffered_engine s data)
  | Except.ok combined_score =>
    analyze_ok_outcome (buffered_engine s data) data user_preferences now
      combined_score

/-- Embeds `flow.rs::get_session_stats`. -/
def get_session_stats (s : FlowDetectionEngine) : ℕ × ℝ :=
  (s.flow_session_count, s.total_flow_time)

/-- Embeds `flow.rs::reset_session_stats`. -/
def reset_session_stats (s : FlowDetectionEngine) : FlowDetectionEngine :=
  { s with flow_session_count := 0, total_flow_time := 0,
           flow_start_time := none }

/-! ### Observers and call sequences (for stating the claims) -/

/-- One invocation of `analyze_flow_state`: the sample, the optional
preferences, and the wall-clock instant of the call. -/
structure Call where
  data : FlowStateData
  prefs : Option UserFlowPreferences
  now : ℝ

/-- Run one call against an engine state. -/
def stepCall (s : FlowDetectionEngine) (c : Call) :
    Except Unit FlowStateResult × FlowDetectionEngine :=
  analyze_flow_state s c.data c.prefs c.now

/-- Run a sequence of calls, collecting the per-call outcomes and the
final engine state. -/
def runCalls (s : FlowDetectionEngine) :
    List Call → List (Except Unit FlowStateResult) × FlowDetectionEngine
  | [] => ([], s)
  | c :: cs =>
    let r := stepCall s c
    let rest := runCalls r.2 cs
    (r.1 :: rest.1, rest.2)

/-- Whether an outcome is a success. -/
def okB : Except Unit FlowStateResult → Bool
  | Except.ok _ => true
  | Except.error _ => false

/-- The in-flow classification of an outcome (`false` on failure). -/
def obsIsInFlow : Except Unit FlowStateResult → Bool
  | Except.ok r => r.is_in_flow
  | Except.error _ => false

/-- The combined intensity of an outcome (0 on failure). -/
def obsIntensity : Except Unit FlowStateResult → ℝ
  | Except.ok r => r.flow_intensity
  | Except.error _ => 0

/-- The reported flow duration of an outcome (0 on failure). -/
def obsDuration : Except Unit FlowStateResult → ℝ
  | Except.ok r => r.flow_duration_ms
  | Except.error _ => 0

/-! ### Concrete inputs and spec-side definitions used in the claims -/

/-- A steady in-range sample used to instantiate the claims. -/
def sampleSteady : FlowStateData :=
  ⟨[100, 100, 100], 0, 0, 400000, 0, 0, none, none⟩

/-- A fully degenerate sample: no intervals, all counters zero. -/
def sampleEmpty : FlowStateData :=
  ⟨[], 0, 0, 0, 0, 0, none, none⟩

/-- The steady sample with 30 context switches (used to drop the
intensity back below the threshold). -/
def sampleSwitchy : FlowStateData :=
  ⟨[100, 100, 100], 30, 0, 400000, 0, 0, none, none⟩

/-- The session-starting call: steady sample at time 0. -/
def callUp : Call := ⟨sampleSteady, none, 0⟩

/-- The session-ending call: switch-heavy sample at time 5. -/
def callDown : Call := ⟨sampleSwitchy, none, 5⟩

/-- A sample with 5 context switches (its focus score is sensitive to
the elapsed-time bonus). -/
def sampleFickle : FlowStateData :=
  ⟨[100, 100, 100], 5, 0, 400000, 0, 0, none, none⟩

/-- An analyzer state with all its recorded instants shifted uniformly
by `d`. -/
def shift_engine (s : FlowDetectionEngine) (d : ℝ) : FlowDetectionEngine :=
  { s with last_analysis := s.last_analysis + d,
           flow_start_time := s.flow_start_time.map (fun t => t + d) }

/-- Spec-side definition following the wording of claim C5 (no
zero-mean case: the tier table is consulted for every mean, and the
sustained bonus is gated on at least 20 intervals). -/
def rhythm_score_claimed (intervals : List ℕ) : ℝ :=
  if intervals.length < 3 then 0
  else
    min (rhythm_base (interval_mean intervals)
          (Real.sqrt (interval_variance intervals) / interval_mean intervals)
        + (if 20 ≤ intervals.length ∧
              calculate_coefficient_of_variation
                (intervals.drop (intervals.length - 20))
              < Real.sqrt (interval_variance intervals)
                  / interval_mean intervals - 0.1
            then 0.1 else 0)) 1

/-- Spec-side definition of the rhythm score as amended: exactly the
claimed form, except that a zero mean (all-zero intervals) yields
score 0. -/
def rhythm_score_amended (intervals : List ℕ) : ℝ :=
  if intervals.length < 3 then 0
  else if interval_mean intervals > 0 then
    min (rhythm_base (interval_mean intervals)
          (Real.sqrt (interval_variance intervals) / interval_mean intervals)
        + (if 20 ≤ intervals.length ∧
              calculate_coefficient_of_variation
                (intervals.drop (intervals.length - 20))
              < Real.sqrt (interval_variance intervals)
                  / interval_mean intervals - 0.1
            then 0.1 else 0)) 1
  else 0

/-- Spec-side combiner following the wording of claim C3: a plain
weighted sum 0.35/0.25/0.20/0.10/0.10 over the five inputs in the
order `[rhythm, focus, consistency, 1 − errorPenalty, velocity]` (the
fourth slot already carries `1 − errorPenalty`, so the 0.10 weight
multiplies it directly), followed by the same nonlinear adjustment and
clamp. -/
def rule_based_prediction_claimed (features : Features) : ℝ :=
  let base_score := features.rhythm_score * 0.35
    + features.focus_score * 0.25
    + features.consistency_score * 0.20
    + features.error_penalty * 0.10
    + features.velocity_score * 0.10
  let adjusted_score :=
    if base_score > 0.8 then base_score + (base_score - 0.8) * 0.5
    else if base_score < 0.3 then base_score * 0.8
    else base_score
  min (max adjusted_score 0) 1

/-! ### Helper lemmas -/

/-- With no model attached, prediction is the rule-based path. -/
theorem predict_flow_state_none (e : MLInferenceEngine) (f : Features)
    (h : e.model = none) :
    predict_flow_state e f = Except.ok (rule_based_prediction f) := by
  unfold predict_flow_state
  rw [h]

/-- The rule-based combined score is clamped into `[0, 1]`. -/
theorem rule_based_prediction_bounds (f : Features) :
    0 ≤ rule_based_prediction f ∧ rule_based_prediction f ≤ 1 := by
  unfold rule_based_prediction
  constructor
  · exact le_min (le_max_right _ 0) zero_le_one
  · exact min_le_right _ 1

/-- The tiered base rhythm score is one of 0.95, 0.80, 0.60, 0.20. -/
theorem rhythm_base_bounds (m cv : ℝ) :
    0.2 ≤ rhythm_base m cv ∧ rhythm_base m cv ≤ 0.95 := by
  unfold rhythm_base
  split_ifs <;> norm_num

/-- The sustained-rhythm bonus is 0 or 0.1. -/
theorem rhythm_sustained_bonus_bounds (intervals : List ℕ) (cv : ℝ) :
    0 ≤ rhythm_sustained_bonus intervals cv ∧
      rhythm_sustained_bonus intervals cv ≤ 0.1 := by
  unfold rhythm_sustained_bonus
  split_ifs <;> norm_num

/-- The rhythm score lands in `[0, 1]`. -/
theorem analyze_keystroke_rhythm_bounds (intervals : List ℕ) :
    0 ≤ analyze_keystroke_rhythm intervals ∧
      analyze_keystroke_rhythm intervals ≤ 1 := by
  unfold analyze_keystroke_rhythm
  split_ifs with h1 h2
  · norm_num
  · refine ⟨le_min ?_ zero_le_one, min_le_right _ 1⟩
    have hb := rhythm_base_bounds (interval_mean intervals)
      (Real.sqrt (interval_variance intervals) / interval_mean intervals)
    have hs := rhythm_sustained_bonus_bounds intervals
      (Real.sqrt (interval_variance intervals) / interval_mean intervals)
    linarith [hb.1, hs.1]
  · norm_num

/-- The time bonus is nonnegative. -/
theorem focus_time_bonus_nonneg (t : ℝ) : 0 ≤ focus_time_bonus t := by
  unfold focus_time_bonus
  split_ifs with h
  · exact le_min (by linarith) (by norm_num)
  · exact le_refl 0

/-- The focus score lands in `(0, 1]`; in particular in `[0, 1]`. -/
theorem calculate_focus_score_bounds (context_switches : ℕ) (t : ℝ) :
    0 ≤ calculate_focus_score context_switches t ∧
      calculate_focus_score context_switches t ≤ 1 := by
  unfold calculate_focus_score
  refine ⟨le_min ?_ zero_le_one, min_le_right _ 1⟩
  have h1 := Real.exp_pos (-0.2 * (context_switches : ℝ))
  have h2 := focus_time_bonus_nonneg t
  linarith

/-- The modification-consistency term is nonnegative (and at most 0.2). -/
theorem mod_consistency_bounds (m w : ℕ) :
    0 ≤ mod_consistency m w ∧ mod_consistency m w ≤ 0.2 := by
  unfold mod_consistency
  split_ifs <;> norm_num

/-- The improvement-rewarding consistency term is nonnegative. -/
theorem consistency_base_nonneg (buffer : List ℕ) :
    0 ≤ consistency_base buffer := by
  unfold consistency_base
  split_ifs <;> exact le_max_right _ 0

/-- The consistency score lands in `[0, 1]`. -/
theorem calculate_consistency_score_bounds (buffer : List ℕ)
    (data : FlowStateData) :
    0 ≤ calculate_consistency_score buffer data ∧
      calculate_consistency_score buffer data ≤ 1 := by
  unfold calculate_consistency_score
  split_ifs with h1
  · norm_num
  · refine ⟨le_min ?_ zero_le_one, min_le_right _ 1⟩
    have := (mod_consistency_bounds data.file_modifications
      data.window_focus_duration).1
    have := consistency_base_nonneg buffer
    linarith

/-- Bound `log 1000 ≤ 10`, via `exp 1 ≥ 2` and `2 ^ 10 = 1024`. -/
theorem log_thousand_le_ten : Real.log 1000 ≤ 10 := by
  have h2 : (2 : ℝ) ≤ Real.exp 1 := by
    have := Real.add_one_le_exp (1 : ℝ)
    linarith
  have hpow : (1000 : ℝ) ≤ Real.exp 1 ^ (10 : ℕ) := by
    calc (1000 : ℝ) ≤ 2 ^ (10 : ℕ) := by norm_num
    _ ≤ Real.exp 1 ^ (10 : ℕ) := by
        exact pow_le_pow_left₀ (by norm_num) h2 10
  have hexp : (1000 : ℝ) ≤ Real.exp 10 := by
    have : Real.exp ((10 : ℕ) * (1 : ℝ)) = Real.exp 1 ^ (10 : ℕ) :=
      Real.exp_nat_mul 1 10
    calc (1000 : ℝ) ≤ Real.exp 1 ^ (10 : ℕ) := hpow
    _ = Real.exp ((10 : ℕ) * (1 : ℝ)) := this.symm
    _ = Real.exp 10 := by norm_num
  calc Real.log 1000 ≤ Real.log (Real.exp 10) :=
        Real.log_le_log (by norm_num) hexp
  _ = 10 := Real.log_exp 10

/-- The error penalty lands in `[0, 1]` for counts up to 1000 (the
unclamped `ln(errors)/10` stays below 1 because `ln 1000 < 10`). -/
theorem calculate_error_penalty_bounds (e : ℕ) (he : e ≤ 1000) :
    0 ≤ calculate_error_penalty e ∧ calculate_error_penalty e ≤ 1 := by
  unfold calculate_error_penalty
  split_ifs with h
  · norm_num
  · have h1 : (1 : ℝ) ≤ (e : ℝ) := by
      exact_mod_cast Nat.one_le_iff_ne_zero.mpr h
    constructor
    · have := Real.log_nonneg h1
      linarith
    · have hle : Real.log e ≤ Real.log 1000 := by
        apply Real.log_le_log (by linarith)
        exact_mod_cast he
      have := log_thousand_le_ten
      linarith

/-- The velocity score lands in `[0, 1]` (it is one of
0.5, 0.7, 0.8, 0.9). -/
theorem calculate_velocity_score_bounds (data : FlowStateData) :
    0 ≤ calculate_velocity_score data ∧
      calculate_velocity_score data ≤ 1 := by
  unfold calculate_velocity_score
  rcases data.typing_velocity with _ | v <;> dsimp <;> split_ifs <;> norm_num

/-- The confidence is clamped into `[0, 1]`. -/
theorem calculate_confidence_bounds (score : ℝ) (data : FlowStateData)
    (history : List ℝ) :
    0 ≤ calculate_confidence score data history ∧
      calculate_confidence score data history ≤ 1 := by
  unfold calculate_confidence
  exact ⟨le_min (le_max_right _ 0) zero_le_one, min_le_right _ 1⟩

/-- The consistency score defaults to 0.5 on fewer than 10 buffered
intervals. -/
theorem calculate_consistency_score_short (buffer : List ℕ)
    (data : FlowStateData) (h : buffer.length < 10) :
    calculate_consistency_score buffer data = 0.5 := by
  unfold calculate_consistency_score
  rw [if_pos h]

/-! ### C10: reset_session_stats frame -/

/-- Claim C10: `reset_session_stats` zeroes the lifetime session
counter and total flow time and clears the flow-start timestamp, and
leaves the keystroke buffer, confidence history, last combined
intensity, last-analysis timestamp and scoring backend unchanged. -/
theorem reset_session_stats_frame (s : FlowDetectionEngine) :
    (reset_session_stats s).flow_session_count = 0 ∧
    (reset_session_stats s).total_flow_time = 0 ∧
    (reset_session_stats s).flow_start_time = none ∧
    (reset_session_stats s).keystroke_buffer = s.keystroke_buffer ∧
    (reset_session_stats s).confidence_history = s.confidence_history ∧
    (reset_session_stats s).current_intensity = s.current_intensity ∧
    (reset_session_stats s).last_analysis = s.last_analysis ∧
    (reset_session_stats s).ml_engine = s.ml_engine :=
  ⟨rfl, rfl, rfl, rfl, rfl, rfl, rfl, rfl⟩

/-! ### C1: all emitted scores are bounded on the rule-based path -/

/-- Claim C1: for every telemetry sample within the documented field
ranges and every analyzer state, the rule-based path (no model
attached) succeeds and returns a flow intensity and confidence in
`[0, 1]`, and all five emitted component scores in `[0, 1]` — in
particular the unclamped error penalty `ln(errors)/10` stays at most 1
for up to 1000 error events. -/
theorem flow_scores_bounded (s : FlowDetectionEngine) (data : FlowStateData)
    (p : Option UserFlowPreferences) (now : ℝ)
    (hmodel : s.ml_engine.model = none)
    (hlen1 : 1 ≤ data.keystroke_intervals.length)
    (hlen2 : data.keystroke_intervals.length ≤ 1000)
    (hcs : data.context_switches ≤ 1000)
    (herr : data.error_events ≤ 1000)
    (hmods : data.file_modifications ≤ 10000) :
    ∃ r s', analyze_flow_state s data p now = (Except.ok r, s') ∧
      0 ≤ r.flow_intensity ∧ r.flow_intensity ≤ 1 ∧
      0 ≤ r.confidence ∧ r.confidence ≤ 1 ∧
      0 ≤ r.metrics.rhythm_score ∧ r.metrics.rhythm_score ≤ 1 ∧
      0 ≤ r.metrics.focus_score ∧ r.metrics.focus_score ≤ 1 ∧
      0 ≤ r.metrics.consistency_score ∧ r.metrics.consistency_score ≤ 1 ∧
      0 ≤ r.metrics.error_penalty ∧ r.metrics.error_penalty ≤ 1 ∧
      0 ≤ r.metrics.velocity_score ∧ r.metrics.velocity_score ≤ 1 := by
  obtain ⟨buf, fst, ci, ⟨m⟩, la, fsc, tft, ch⟩ := s
  obtain rfl : m = none := hmodel
  refine ⟨_, _, rfl, ?_, ?_, ?_, ?_, ?_, ?_, ?_, ?_, ?_, ?_, ?_, ?_, ?_, ?_⟩
  · exact (rule_based_prediction_bounds _).1
  · exact (rule_based_prediction_bounds _).2
  · exact (calculate_confidence_bounds _ _ _).1
  · exact (calculate_confidence_bounds _ _ _).2
  · exact (analyze_keystroke_rhythm_bounds _).1
  · exact (analyze_keystroke_rhythm_bounds _).2
  · exact (calculate_focus_score_bounds _ _).1
  · exact (calculate_focus_score_bounds _ _).2
  · exact (calculate_consistency_score_bounds _ _).1
  · exact (calculate_consistency_score_bounds _ _).2
  · exact (calculate_error_penalty_bounds _ herr).1
  · exact (calculate_error_penalty_bounds _ herr).2
  · exact (calculate_velocity_score_bounds _).1
  · exact (calculate_velocity_score_bounds _).2


/-- Witness for C1 at a concrete state and sample. -/
theorem flow_scores_bounded_witness :
    ((engineNew 0).ml_engine.model = none ∧
      1 ≤ sampleSteady.keystroke_intervals.length ∧
      sampleSteady.keystroke_intervals.length ≤ 1000 ∧
      sampleSteady.context_switches ≤ 1000 ∧
      sampleSteady.error_events ≤ 1000 ∧
      sampleSteady.file_modifications ≤ 10000) ∧
    (∃ r s', analyze_flow_state (engineNew 0) sampleSteady none 0 =
        (Except.ok r, s') ∧
      0 ≤ r.flow_intensity ∧ r.flow_intensity ≤ 1 ∧
      0 ≤ r.confidence ∧ r.confidence ≤ 1 ∧
      0 ≤ r.metrics.rhythm_score ∧ r.metrics.rhythm_score ≤ 1 ∧
      0 ≤ r.metrics.focus_score ∧ r.metrics.focus_score ≤ 1 ∧
      0 ≤ r.metrics.consistency_score ∧ r.metrics.consistency_score ≤ 1 ∧
      0 ≤ r.metrics.error_penalty ∧ r.metrics.error_penalty ≤ 1 ∧
      0 ≤ r.metrics.velocity_score ∧ r.metrics.velocity_score ≤ 1) :=
  ⟨⟨rfl, by norm_num [sampleSteady], by norm_num [sampleSteady],
    by norm_num [sampleSteady], by norm_num [sampleSteady],
    by norm_num [sampleSteady]⟩,
   flow_scores_bounded (engineNew 0) sampleSteady none 0 rfl
     (by norm_num [sampleSteady]) (by norm_num [sampleSteady])
     (by norm_num [sampleSteady]) (by norm_num [sampleSteady])
     (by norm_num [sampleSteady])⟩

/-! ### C7: totality of the rule-based path on degenerate input -/

/-- Claim C7: with no model attached, `analyze_flow_state` never
fails, even on degenerate input; the component computations substitute
neutral defaults (0 rhythm below 3 intervals, 0.5 consistency below 10
buffered intervals, 0.5 velocity with no data), and a zero
window-focus duration makes the modification-rate term contribute no
bonus instead of failing. -/
theorem analyze_total_without_model :
    (∀ s data p now, s.ml_engine.model = none →
      ∃ r s', analyze_flow_state s data p now = (Except.ok r, s')) ∧
    (∀ intervals : List ℕ, intervals.length < 3 →
      analyze_keystroke_rhythm intervals = 0) ∧
    (∀ buffer data, buffer.length < 10 →
      calculate_consistency_score buffer data = 0.5) ∧
    (∀ data, data.typing_velocity = none → data.keystroke_intervals = [] →
      calculate_velocity_score data = 0.5) ∧
    (∀ m : ℕ, mod_consistency m 0 = 0) := by
  refine ⟨?_, ?_, ?_, ?_, ?_⟩
  · intro s data p now hmodel
    obtain ⟨buf, fst, ci, ⟨mm⟩, la, fsc, tft, ch⟩ := s
    obtain rfl : mm = none := hmodel
    exact ⟨_, _, rfl⟩
  · intro intervals h
    unfold analyze_keystroke_rhythm
    rw [if_pos h]
  · intro buffer data h
    exact calculate_consistency_score_short buffer data h
  · intro data hv he
    unfold calculate_velocity_score
    rw [hv, he]
    simp
  · intro m
    unfold mod_consistency
    split_ifs with h h1 h2 <;> first
      | rfl
      | · exfalso
          rcases h1 with ⟨h1, _⟩
          rw [Nat.cast_zero, div_zero, zero_mul] at h1
          norm_num at h1
      | · exfalso
          rcases h2 with ⟨h2, _⟩
          rw [Nat.cast_zero, div_zero, zero_mul] at h2
          norm_num at h2


/-- Witness for C7 at concrete degenerate inputs. -/
theorem analyze_total_without_model_witness :
    ((engineNew 0).ml_engine.model = none ∧
      ([] : List ℕ).length < 3 ∧
      ([] : List ℕ).length < 10 ∧
      sampleEmpty.typing_velocity = none ∧
      sampleEmpty.keystroke_intervals = []) ∧
    ((∃ r s', analyze_flow_state (engineNew 0) sampleEmpty none 0 =
        (Except.ok r, s')) ∧
      analyze_keystroke_rhythm [] = 0 ∧
      calculate_consistency_score [] sampleEmpty = 0.5 ∧
      calculate_velocity_score sampleEmpty = 0.5 ∧
      mod_consistency 5 0 = 0) :=
  ⟨⟨rfl, by norm_num, by norm_num, rfl, rfl⟩,
   analyze_total_without_model.1 (engineNew 0) sampleEmpty none 0 rfl,
   analyze_total_without_model.2.1 [] (by norm_num),
   analyze_total_without_model.2.2.1 [] sampleEmpty (by norm_num),
   analyze_total_without_model.2.2.2.1 sampleEmpty rfl rfl,
   analyze_total_without_model.2.2.2.2 5⟩

/-! ### C8: ring-buffer bounds and contents -/

/-- One ring-buffer push on a buffer in most-recent-suffix form keeps
that form. -/
theorem push_interval_drop (A : List ℕ) (x : ℕ) :
    push_interval (A.drop (A.length - 100)) x
      = (A ++ [x]).drop ((A ++ [x]).length - 100) := by
  unfold push_interval
  rcases le_or_lt A.length 99 with h | h
  · have h0 : A.length - 100 = 0 := by omega
    have h1 : (A ++ [x]).length - 100 = 0 := by
      simp only [List.length_append, List.length_singleton]
      omega
    rw [h0, h1, List.drop_zero, List.drop_zero]
    rw [if_neg]
    simp only [List.length_append, List.length_singleton]
    omega
  · have hk : A.length - 100 + 100 = A.length := by omega
    have hlenB : (A.drop (A.length - 100)).length = 100 := by
      rw [List.length_drop]
      omega
    rw [if_pos]
    · have hBne : A.drop (A.length - 100) ≠ [] := by
        intro hnil
        rw [hnil] at hlenB
        simp at hlenB
      rw [List.tail_append_of_ne_nil hBne, List.tail_drop]
      have h2 : (A ++ [x]).length - 100 = A.length - 100 + 1 := by
        simp only [List.length_append, List.length_singleton]
        omega
      rw [h2, List.drop_append_of_le_length (by omega)]
    · rw [List.length_append, hlenB]
      norm_num

/-- The ring-buffer update loop keeps the buffer equal to the suffix
of the most recent 100 of all values ever supplied. -/
theorem push_intervals_drop (l A : List ℕ) :
    push_intervals (A.drop (A.length - 100)) l
      = (A ++ l).drop ((A ++ l).length - 100) := by
  induction l generalizing A with
  | nil => simp [push_intervals]
  | cons x l ih =>
    unfold push_intervals at ih ⊢
    rw [List.foldl_cons, push_interval_drop A x, ih (A ++ [x]),
      List.append_assoc]
    rfl

/-- Buffer length after the update loop never exceeds 100 (given the
incoming buffer respects the bound). -/
theorem push_intervals_length (l b : List ℕ) (hb : b.length ≤ 100) :
    (push_intervals b l).length ≤ 100 := by
  have hbeq : b = (b.drop (b.length - 100)) := by
    have : b.length - 100 = 0 := by omega
    rw [this, List.drop_zero]
  calc (push_intervals b l).length
      = (push_intervals (b.drop (b.length - 100)) l).length := by rw [← hbeq]
  _ = ((b ++ l).drop ((b ++ l).length - 100)).length := by
      rw [push_intervals_drop]
  _ ≤ 100 := by
      rw [List.length_drop]
      omega

/-- A confidence push keeps the history within its capacity of 50. -/
theorem push_confidence_length (h : List ℝ) (c : ℝ)
    (hh : h.length ≤ 50) : (push_confidence h c).length ≤ 50 := by
  unfold push_confidence
  split_ifs with hlen
  · rw [List.length_tail]
    simp only [List.length_append, List.length_singleton]
    omega
  · simp only [List.length_append, List.length_singleton] at hlen ⊢
    omega

/-- The session-duration transition only touches the session
accounting fields (`flow_start_time`, `flow_session_count`,
`total_flow_time`). -/
theorem calculate_flow_duration_frame (b : Bool) (s : FlowDetectionEngine)
    (t : ℝ) :
    (calculate_flow_duration b s t).2.keystroke_buffer = s.keystroke_buffer ∧
    (calculate_flow_duration b s t).2.current_intensity =
      s.current_intensity ∧
    (calculate_flow_duration b s t).2.ml_engine = s.ml_engine ∧
    (calculate_flow_duration b s t).2.last_analysis = s.last_analysis ∧
    (calculate_flow_duration b s t).2.confidence_history =
      s.confidence_history := by
  obtain ⟨buf, fst, ci, me, la, fsc, tft, ch⟩ := s
  rcases b <;> rcases fst <;> exact ⟨rfl, rfl, rfl, rfl, rfl⟩

/-- Both outcomes of a call leave the keystroke buffer equal to the
ring-buffer update of the incoming buffer with the sample's
intervals. -/
theorem stepCall_keystroke_buffer (s : FlowDetectionEngine) (c : Call) :
    (stepCall s c).2.keystroke_buffer
      = push_intervals s.keystroke_buffer c.data.keystroke_intervals := by
  unfold stepCall analyze_flow_state
  split
  · rfl
  · exact (calculate_flow_duration_frame _ _ _).1

/-- A call leaves the confidence history either unchanged (inference
failure) or pushed by one bounded entry; in both cases the capacity
bound of 50 is preserved. -/
theorem stepCall_confidence_length (s : FlowDetectionEngine) (c : Call)
    (hh : s.confidence_history.length ≤ 50) :
    (stepCall s c).2.confidence_history.length ≤ 50 := by
  unfold stepCall analyze_flow_state
  split
  · exact hh
  · show (push_confidence
      (calculate_flow_duration _ (buffered_engine s c.data) c.now).2.confidence_history
      _).length ≤ 50
    rw [(calculate_flow_duration_frame _ _ _).2.2.2.2]
    exact push_confidence_length _ _ hh

/-- Across any run, the keystroke buffer is the most recent at most
100 supplied intervals, in arrival order. -/
theorem runCalls_keystroke_buffer (calls : List Call)
    (s : FlowDetectionEngine) (A : List ℕ)
    (hbuf : s.keystroke_buffer = A.drop (A.length - 100)) :
    (runCalls s calls).2.keystroke_buffer
      = (A ++ (calls.map fun c => c.data.keystroke_intervals).flatten).drop
          ((A ++ (calls.map fun c => c.data.keystroke_intervals).flatten).length
            - 100) := by
  induction calls generalizing s A with
  | nil =>
    simpa [runCalls] using hbuf
  | cons c cs ih =>
    show (runCalls (stepCall s c).2 cs).2.keystroke_buffer = _
    have hbuf' : (stepCall s c).2.keystroke_buffer
        = (A ++ c.data.keystroke_intervals).drop
            ((A ++ c.data.keystroke_intervals).length - 100) := by
      rw [stepCall_keystroke_buffer, hbuf, push_intervals_drop]
    rw [ih _ _ hbuf']
    simp [List.append_assoc]

/-- The confidence-history capacity bound is preserved across any
run. -/
theorem runCalls_confidence_length (calls : List Call)
    (s : FlowDetectionEngine) (hh : s.confidence_history.length ≤ 50) :
    (runCalls s calls).2.confidence_history.length ≤ 50 := by
  induction calls generalizing s with
  | nil => exact hh
  | cons c cs ih =>
    show (runCalls (stepCall s c).2 cs).2.confidence_history.length ≤ 50
    exact ih _ (stepCall_confidence_length s c hh)

/-- Claim C8: starting from a fresh engine, after any sequence of
calls the keystroke ring buffer holds exactly the most recent (at
most) 100 supplied intervals in arrival order and never exceeds 100
entries, and the confidence history never exceeds 50 entries;
moreover, a single call preserves both capacity bounds from any state
respecting them, regardless of how many intervals the sample
carries. -/
theorem ring_buffer_invariant :
    (∀ (t0 : ℝ) (calls : List Call),
      (runCalls (engineNew t0) calls).2.keystroke_buffer
        = ((calls.map fun c => c.data.keystroke_intervals).flatten).drop
            (((calls.map fun c => c.data.keystroke_intervals).flatten).length
              - 100) ∧
      (runCalls (engineNew t0) calls).2.keystroke_buffer.length ≤ 100 ∧
      (runCalls (engineNew t0) calls).2.confidence_history.length ≤ 50) ∧
    (∀ s c, s.keystroke_buffer.length ≤ 100 →
      s.confidence_history.length ≤ 50 →
      (stepCall s c).2.keystroke_buffer.length ≤ 100 ∧
      (stepCall s c).2.confidence_history.length ≤ 50) := by
  constructor
  · intro t0 calls
    have hmain := runCalls_keystroke_buffer calls (engineNew t0) []
      (by simp [engineNew])
    simp only [List.nil_append] at hmain
    refine ⟨hmain, ?_, ?_⟩
    · rw [hmain, List.length_drop]
      omega
    · exact runCalls_confidence_length calls (engineNew t0)
        (by simp [engineNew])
  · intro s c hb hc
    constructor
    · rw [stepCall_keystroke_buffer]
      exact push_intervals_length _ _ hb
    · exact stepCall_confidence_length s c hc

/-- Witness for C8: a concrete call against a fresh engine. -/
theorem ring_buffer_invariant_witness :
    ((engineNew 0).keystroke_buffer.length ≤ 100 ∧
      (engineNew 0).confidence_history.length ≤ 50) ∧
    ((runCalls (engineNew 0) [⟨sampleSteady, none, 0⟩]).2.keystroke_buffer
        = (([⟨sampleSteady, none, 0⟩] : List Call).map
            (fun c => c.data.keystroke_intervals)).flatten.drop
            ((([⟨sampleSteady, none, 0⟩] : List Call).map
              (fun c => c.data.keystroke_intervals)).flatten.length - 100) ∧
      (runCalls (engineNew 0)
        [⟨sampleSteady, none, 0⟩]).2.keystroke_buffer.length ≤ 100 ∧
      (runCalls (engineNew 0)
        [⟨sampleSteady, none, 0⟩]).2.confidence_history.length ≤ 50) ∧
    ((stepCall (engineNew 0)
        ⟨sampleSteady, none, 0⟩).2.keystroke_buffer.length ≤ 100 ∧
      (stepCall (engineNew 0)
        ⟨sampleSteady, none, 0⟩).2.confidence_history.length ≤ 50) :=
  ⟨⟨by simp [engineNew], by simp [engineNew]⟩,
   ring_buffer_invariant.1 0 [⟨sampleSteady, none, 0⟩],
   ring_buffer_invariant.2 (engineNew 0) ⟨sampleSteady, none, 0⟩
     (by simp [engineNew]) (by simp [engineNew])⟩

/-! ### C4: threshold classification and session accounting -/

/-- Transition `OutOfFlow → InFlow`: starting a session records the current time
and reports duration 0. -/
theorem calculate_flow_duration_start (s : FlowDetectionEngine) (t : ℝ)
    (h : s.flow_start_time = none) :
    calculate_flow_duration true s t
      = (0, { s with flow_start_time := some t }) := by
  unfold calculate_flow_duration
  rw [h]

/-- Transition `InFlow → InFlow`: a continuing session reports the elapsed time
and leaves the state untouched. -/
theorem calculate_flow_duration_continue (s : FlowDetectionEngine)
    (t a : ℝ) (h : s.flow_start_time = some a) :
    calculate_flow_duration true s t = (t - a, s) := by
  unfold calculate_flow_duration
  rw [h]

/-- Transition `InFlow → OutOfFlow`: ending a session adds the elapsed span to
the lifetime total, bumps the session counter, clears the start
timestamp and reports the final duration. -/
theorem calculate_flow_duration_end (s : FlowDetectionEngine) (t a : ℝ)
    (h : s.flow_start_time = some a) :
    calculate_flow_duration false s t
      = (t - a,
         { s with total_flow_time := s.total_flow_time + (t - a),
                  flow_session_count := s.flow_session_count + 1,
                  flow_start_time := none }) := by
  unfold calculate_flow_duration
  rw [h]

/-- Transition `OutOfFlow → OutOfFlow`: no session, duration 0, state
untouched. -/
theorem calculate_flow_duration_idle (s : FlowDetectionEngine) (t : ℝ)
    (h : s.flow_start_time = none) :
    calculate_flow_duration false s t = (0, s) := by
  unfold calculate_flow_duration
  rw [h]

/-- A successful call is, for some combined score, the successful tail
of the analysis. -/
theorem stepCall_ok_elim (s : FlowDetectionEngine) (c : Call)
    (hok : okB (stepCall s c).1 = true) :
    ∃ v, stepCall s c
      = analyze_ok_outcome (buffered_engine s c.data) c.data c.prefs c.now
          v := by
  unfold stepCall analyze_flow_state at hok ⊢
  cases hpred : predict_flow_state (buffered_engine s c.data).ml_engine
      (sample_features (buffered_engine s c.data).keystroke_buffer c.data
        (c.now - (buffered_engine s c.data).last_analysis)) with
  | error e =>
    rw [hpred] at hok
    simp [okB] at hok
  | ok v =>
    exact ⟨v, rfl⟩

/-- A successful in-flow call on a state with no active session starts
one at the call's instant, leaves the lifetime counters unchanged and
reports duration 0. -/
theorem stepCall_start (s : FlowDetectionEngine) (c : Call)
    (hst : s.flow_start_time = none)
    (hok : okB (stepCall s c).1 = true)
    (hin : obsIsInFlow (stepCall s c).1 = true) :
    (stepCall s c).2.flow_start_time = some c.now ∧
    (stepCall s c).2.flow_session_count = s.flow_session_count ∧
    (stepCall s c).2.total_flow_time = s.total_flow_time ∧
    obsDuration (stepCall s c).1 = 0 := by
  obtain ⟨v, hv⟩ := stepCall_ok_elim s c hok
  rw [hv] at hin ⊢
  have hb : decide (effective_sensitivity c.prefs < v) = true := hin
  have hcfd := calculate_flow_duration_start (buffered_engine s c.data) c.now
    (show (buffered_engine s c.data).flow_start_time = none from hst)
  refine ⟨?_, ?_, ?_, ?_⟩
  · show (calculate_flow_duration
        (decide (effective_sensitivity c.prefs < v))
        (buffered_engine s c.data) c.now).2.flow_start_time = some c.now
    rw [hb, hcfd]
  · show (calculate_flow_duration
        (decide (effective_sensitivity c.prefs < v))
        (buffered_engine s c.data) c.now).2.flow_session_count
      = s.flow_session_count
    rw [hb, hcfd]
    rfl
  · show (calculate_flow_duration
        (decide (effective_sensitivity c.prefs < v))
        (buffered_engine s c.data) c.now).2.total_flow_time
      = s.total_flow_time
    rw [hb, hcfd]
    rfl
  · show (calculate_flow_duration
        (decide (effective_sensitivity c.prefs < v))
        (buffered_engine s c.data) c.now).1 = 0
    rw [hb, hcfd]

/-- A successful in-flow call on a state with an active session keeps
the session's start timestamp and the lifetime counters, and reports
the elapsed span. -/
theorem stepCall_continue (s : FlowDetectionEngine) (c : Call) (a : ℝ)
    (hst : s.flow_start_time = some a)
    (hok : okB (stepCall s c).1 = true)
    (hin : obsIsInFlow (stepCall s c).1 = true) :
    (stepCall s c).2.flow_start_time = some a ∧
    (stepCall s c).2.flow_session_count = s.flow_session_count ∧
    (stepCall s c).2.total_flow_time = s.total_flow_time ∧
    obsDuration (stepCall s c).1 = c.now - a := by
  obtain ⟨v, hv⟩ := stepCall_ok_elim s c hok
  rw [hv] at hin ⊢
  have hb : decide (effective_sensitivity c.prefs < v) = true := hin
  have hcfd := calculate_flow_duration_continue (buffered_engine s c.data)
    c.now a (show (buffered_engine s c.data).flow_start_time = some a from hst)
  refine ⟨?_, ?_, ?_, ?_⟩
  · show (calculate_flow_duration
        (decide (effective_sensitivity c.prefs < v))
        (buffered_engine s c.data) c.now).2.flow_start_time = some a
    rw [hb, hcfd]
    exact hst
  · show (calculate_flow_duration
        (decide (effective_sensitivity c.prefs < v))
        (buffered_engine s c.data) c.now).2.flow_session_count
      = s.flow_session_count
    rw [hb, hcfd]
    rfl
  · show (calculate_flow_duration
        (decide (effective_sensitivity c.prefs < v))
        (buffered_engine s c.data) c.now).2.total_flow_time
      = s.total_flow_time
    rw [hb, hcfd]
    rfl
  · show (calculate_flow_duration
        (decide (effective_sensitivity c.prefs < v))
        (buffered_engine s c.data) c.now).1 = c.now - a
    rw [hb, hcfd]

/-- A successful out-of-flow call on a state with an active session
ends it: counter bumped once, elapsed span added to the lifetime
total, start timestamp cleared, final duration reported. -/
theorem stepCall_end (s : FlowDetectionEngine) (c : Call) (a : ℝ)
    (hst : s.flow_start_time = some a)
    (hok : okB (stepCall s c).1 = true)
    (hin : obsIsInFlow (stepCall s c).1 = false) :
    (stepCall s c).2.flow_start_time = none ∧
    (stepCall s c).2.flow_session_count = s.flow_session_count + 1 ∧
    (stepCall s c).2.total_flow_time = s.total_flow_time + (c.now - a) ∧
    obsDuration (stepCall s c).1 = c.now - a := by
  obtain ⟨v, hv⟩ := stepCall_ok_elim s c hok
  rw [hv] at hin ⊢
  have hb : decide (effective_sensitivity c.prefs < v) = false := hin
  have hcfd := calculate_flow_duration_end (buffered_engine s c.data)
    c.now a (show (buffered_engine s c.data).flow_start_time = some a from hst)
  refine ⟨?_, ?_, ?_, ?_⟩
  · show (calculate_flow_duration
        (decide (effective_sensitivity c.prefs < v))
        (buffered_engine s c.data) c.now).2.flow_start_time = none
    rw [hb, hcfd]
  · show (calculate_flow_duration
        (decide (effective_sensitivity c.prefs < v))
        (buffered_engine s c.data) c.now).2.flow_session_count
      = s.flow_session_count + 1
    rw [hb, hcfd]
    rfl
  · show (calculate_flow_duration
        (decide (effective_sensitivity c.prefs < v))
        (buffered_engine s c.data) c.now).2.total_flow_time
      = s.total_flow_time + (c.now - a)
    rw [hb, hcfd]
    rfl
  · show (calculate_flow_duration
        (decide (effective_sensitivity c.prefs < v))
        (buffered_engine s c.data) c.now).1 = c.now - a
    rw [hb, hcfd]

/-- A run of successful in-flow calls keeps an active session's start
timestamp and the lifetime counters. -/
theorem runCalls_in_flow_frame (calls : List Call)
    (s : FlowDetectionEngine) (a : ℝ) (hst : s.flow_start_time = some a)
    (hall : ∀ r ∈ (runCalls s calls).1, okB r = true ∧ obsIsInFlow r = true) :
    (runCalls s calls).2.flow_start_time = some a ∧
    (runCalls s calls).2.flow_session_count = s.flow_session_count ∧
    (runCalls s calls).2.total_flow_time = s.total_flow_time := by
  induction calls generalizing s with
  | nil => exact ⟨hst, rfl, rfl⟩
  | cons c cs ih =>
    have hmem : (stepCall s c).1 ∈ (runCalls s (c :: cs)).1 := by
      show (stepCall s c).1
        ∈ (stepCall s c).1 :: (runCalls (stepCall s c).2 cs).1
      exact List.mem_cons_self _ _
    obtain ⟨hok, hin⟩ := hall _ hmem
    have hstep := stepCall_continue s c a hst hok hin
    have hall' : ∀ r ∈ (runCalls (stepCall s c).2 cs).1,
        okB r = true ∧ obsIsInFlow r = true := by
      intro r hr
      refine hall r ?_
      show r ∈ (stepCall s c).1 :: (runCalls (stepCall s c).2 cs).1
      exact List.mem_cons_of_mem _ hr
    have hrest := ih (stepCall s c).2 hstep.1 hall'
    refine ⟨hrest.1, ?_, ?_⟩
    · show (runCalls (stepCall s c).2 cs).2.flow_session_count
        = s.flow_session_count
      rw [hrest.2.1, hstep.2.1]
    · show (runCalls (stepCall s c).2 cs).2.total_flow_time
        = s.total_flow_time
      rw [hrest.2.2, hstep.2.2.1]

/-- Claim C4: a call is classified in-flow iff the combined intensity
strictly exceeds the effective sensitivity (preferences, default 0.7);
and a sequence that crosses from no-session to above the threshold and
later back to at-or-below increments the lifetime session counter
exactly once, adds the span of the above-threshold run to the lifetime
flow-time total, clears the start timestamp, reports that final
duration on the ending call, and reports duration 0 on the starting
call. -/
theorem flow_session_accounting :
    (∀ (s : FlowDetectionEngine) (c : Call),
      okB (stepCall s c).1 = true →
      (obsIsInFlow (stepCall s c).1 = true ↔
        effective_sensitivity c.prefs < obsIntensity (stepCall s c).1)) ∧
    (∀ (s0 : FlowDetectionEngine) (c1 : Call) (mid : List Call) (cn : Call),
      s0.flow_start_time = none →
      okB (stepCall s0 c1).1 = true →
      obsIsInFlow (stepCall s0 c1).1 = true →
      (∀ r ∈ (runCalls (stepCall s0 c1).2 mid).1,
        okB r = true ∧ obsIsInFlow r = true) →
      okB (stepCall (runCalls (stepCall s0 c1).2 mid).2 cn).1 = true →
      obsIsInFlow (stepCall (runCalls (stepCall s0 c1).2 mid).2 cn).1
        = false →
      (stepCall (runCalls (stepCall s0 c1).2 mid).2 cn).2.flow_session_count
          = s0.flow_session_count + 1 ∧
      (stepCall (runCalls (stepCall s0 c1).2 mid).2 cn).2.total_flow_time
          = s0.total_flow_time + (cn.now - c1.now) ∧
      (stepCall (runCalls (stepCall s0 c1).2 mid).2 cn).2.flow_start_time
          = none ∧
      obsDuration (stepCall (runCalls (stepCall s0 c1).2 mid).2 cn).1
          = cn.now - c1.now ∧
      obsDuration (stepCall s0 c1).1 = 0) := by
  constructor
  · intro s c hok
    obtain ⟨v, hv⟩ := stepCall_ok_elim s c hok
    rw [hv]
    show decide (effective_sensitivity c.prefs < v) = true ↔
      effective_sensitivity c.prefs < v
    exact decide_eq_true_iff
  · intro s0 c1 mid cn hst hok1 hin1 hmid hokn hinn
    have h1 := stepCall_start s0 c1 hst hok1 hin1
    have h2 := runCalls_in_flow_frame mid (stepCall s0 c1).2 c1.now h1.1 hmid
    have h3 := stepCall_end (runCalls (stepCall s0 c1).2 mid).2 cn c1.now
      h2.1 hokn hinn
    refine ⟨?_, ?_, h3.1, h3.2.2.2, h1.2.2.2⟩
    · rw [h3.2.1, h2.2.1, h1.2.1]
    · rw [h3.2.2.1, h2.2.2, h1.2.2.1]

/-! ### Concrete evaluations used by the witnesses and counterexamples -/

/-- A call does not change the scoring backend. -/
theorem stepCall_ml_engine (s : FlowDetectionEngine) (c : Call) :
    (stepCall s c).2.ml_engine = s.ml_engine := by
  unfold stepCall analyze_flow_state
  split
  · rfl
  · exact (calculate_flow_duration_frame _ _ _).2.2.1

/-- With no model attached a call always succeeds. -/
theorem stepCall_ok_of_none (s : FlowDetectionEngine) (c : Call)
    (h : s.ml_engine.model = none) : okB (stepCall s c).1 = true := by
  obtain ⟨buf, fst, ci, ⟨mm⟩, la, fsc, tft, ch⟩ := s
  obtain rfl : mm = none := h
  rfl

/-- A successful call stamps the call's instant as the last-analysis
time. -/
theorem stepCall_ok_last_analysis (s : FlowDetectionEngine) (c : Call)
    (hok : okB (stepCall s c).1 = true) :
    (stepCall s c).2.last_analysis = c.now := by
  obtain ⟨v, hv⟩ := stepCall_ok_elim s c hok
  rw [hv]
  rfl

/-- With no model attached the reported intensity is the rule-based
combination of the sample's features. -/
theorem stepCall_none_intensity (s : FlowDetectionEngine) (c : Call)
    (h : s.ml_engine.model = none) :
    obsIntensity (stepCall s c).1 = rule_based_prediction
      (sample_features
        (push_intervals s.keystroke_buffer c.data.keystroke_intervals)
        c.data (c.now - s.last_analysis)) := by
  obtain ⟨buf, fst, ci, ⟨mm⟩, la, fsc, tft, ch⟩ := s
  obtain rfl : mm = none := h
  rfl

/-- With no model attached the in-flow flag is the threshold test on
the rule-based combination. -/
theorem stepCall_none_in_flow (s : FlowDetectionEngine) (c : Call)
    (h : s.ml_engine.model = none) :
    obsIsInFlow (stepCall s c).1 = decide
      (effective_sensitivity c.prefs < rule_based_prediction
        (sample_features
          (push_intervals s.keystroke_buffer c.data.keystroke_intervals)
          c.data (c.now - s.last_analysis))) := by
  obtain ⟨buf, fst, ci, ⟨mm⟩, la, fsc, tft, ch⟩ := s
  obtain rfl : mm = none := h
  rfl

/-- Bound `exp 1 ≥ 2`. -/
theorem two_le_exp_one : (2 : ℝ) ≤ Real.exp 1 := by
  have := Real.add_one_le_exp (1 : ℝ)
  linarith

/-- Bound `exp (-1) ≤ 1/2`. -/
theorem exp_neg_one_le_half : Real.exp (-1) ≤ 1 / 2 := by
  rw [Real.exp_neg]
  rw [show (1 : ℝ) / 2 = 2⁻¹ by norm_num]
  exact inv_anti₀ (by norm_num) two_le_exp_one

/-- Bound `exp (-6) ≤ 1/7`. -/
theorem exp_neg_six_le_seventh : Real.exp (-6) ≤ 1 / 7 := by
  have h7 : (7 : ℝ) ≤ Real.exp 6 := by
    have := Real.add_one_le_exp (6 : ℝ)
    linarith
  rw [Real.exp_neg]
  rw [show (1 : ℝ) / 7 = 7⁻¹ by norm_num]
  exact inv_anti₀ (by norm_num) h7

/-- Rhythm score of three equal 100 ms intervals: optimal tier. -/
theorem rhythm_steady_eval : analyze_keystroke_rhythm [100, 100, 100] = 0.95 := by
  have hmean : interval_mean [100, 100, 100] = 100 := by
    norm_num [interval_mean]
  have hvar : interval_variance [100, 100, 100] = 0 := by
    norm_num [interval_variance, hmean]
  unfold analyze_keystroke_rhythm
  rw [hmean, hvar, Real.sqrt_zero]
  norm_num [rhythm_base, rhythm_sustained_bonus, min_def]

/-- Focus score with no context switches and no elapsed time. -/
theorem focus_eval_up : calculate_focus_score 0 ((0 : ℝ) - 0) = 1 := by
  unfold calculate_focus_score focus_time_bonus
  norm_num [Real.exp_zero]

/-- Focus score with 30 context switches, 5 s elapsed: bare
`exp (-6)`. -/
theorem focus_eval_down :
    calculate_focus_score 30 ((5 : ℝ) - 0) = Real.exp (-6) := by
  unfold calculate_focus_score focus_time_bonus
  rw [if_neg (by norm_num)]
  rw [show (-0.2 * ((30 : ℕ) : ℝ) : ℝ) = -6 by norm_num]
  rw [add_zero]
  exact min_eq_left ((Real.exp_le_exp.mpr (by norm_num)).trans
    (le_of_eq Real.exp_zero))

/-- Velocity score derived from 100 ms intervals: 600 chars/min, the
middle band. -/
theorem velocity_eval (d : FlowStateData) (hv : d.typing_velocity = none)
    (hk : d.keystroke_intervals = [100, 100, 100]) :
    calculate_velocity_score d = 0.7 := by
  unfold calculate_velocity_score
  rw [hv, hk]
  norm_num
  simp




/-- Rule-based combination of the steady sample's scores. -/
theorem rule_based_up :
    rule_based_prediction ⟨0.95, 1, 0.5, 1 - 0, 0.7⟩ = 0.7525 := by
  norm_num [rule_based_prediction, min_def, max_def]

/-- Rule-based combination of the switch-heavy sample's scores. -/
theorem rule_based_down :
    rule_based_prediction ⟨0.95, Real.exp (-6), 0.5, 1 - 0, 0.7⟩
      = 0.5025 + 0.25 * Real.exp (-6) := by
  have hpos := Real.exp_pos (-6 : ℝ)
  have hle := exp_neg_six_le_seventh
  simp only [rule_based_prediction]
  split_ifs with h1 h2
  · exfalso
    nlinarith
  · exfalso
    nlinarith
  · rw [max_eq_left (by nlinarith), min_eq_left (by nlinarith)]
    ring

/-- Combined intensity of the session-starting call: exactly
0.7525. -/
theorem up_intensity :
    obsIntensity (stepCall (engineNew 0) callUp).1 = 0.7525 := by
  rw [stepCall_none_intensity _ _ rfl]
  show rule_based_prediction
    (sample_features [100, 100, 100] sampleSteady ((0 : ℝ) - 0)) = 0.7525
  unfold sample_features
  rw [show analyze_keystroke_rhythm sampleSteady.keystroke_intervals = 0.95
      from rhythm_steady_eval,
    show calculate_focus_score sampleSteady.context_switches ((0 : ℝ) - 0) = 1
      from focus_eval_up,
    calculate_consistency_score_short _ _ (by norm_num),
    show calculate_error_penalty sampleSteady.error_events = 0 from rfl,
    velocity_eval sampleSteady rfl rfl]
  exact rule_based_up

/-- The session-starting call is classified in-flow (0.7525 > 0.7). -/
theorem up_in_flow :
    obsIsInFlow (stepCall (engineNew 0) callUp).1 = true := by
  rw [stepCall_none_in_flow _ _ rfl]
  rw [decide_eq_true_iff]
  show effective_sensitivity none < rule_based_prediction
    (sample_features [100, 100, 100] sampleSteady ((0 : ℝ) - 0))
  have h := up_intensity
  rw [stepCall_none_intensity _ _ rfl] at h
  rw [show (effective_sensitivity none : ℝ) = 0.7 from rfl]
  calc (0.7 : ℝ) < 0.7525 := by norm_num
  _ = _ := h.symm

/-- The model stays absent across the first call. -/
theorem up_ml_none :
    (stepCall (engineNew 0) callUp).2.ml_engine.model = none := by
  rw [stepCall_ml_engine]
  rfl

/-- Rule-based value fed to the threshold test on the ending call. -/
theorem down_rule_value :
    rule_based_prediction (sample_features
      (push_intervals (stepCall (engineNew 0) callUp).2.keystroke_buffer
        callDown.data.keystroke_intervals)
      callDown.data
      (callDown.now - (stepCall (engineNew 0) callUp).2.last_analysis))
      = 0.5025 + 0.25 * Real.exp (-6) := by
  rw [stepCall_keystroke_buffer,
    stepCall_ok_last_analysis _ _ (stepCall_ok_of_none _ _ rfl)]
  show rule_based_prediction
    (sample_features [100, 100, 100, 100, 100, 100] sampleSwitchy
      ((5 : ℝ) - 0)) = 0.5025 + 0.25 * Real.exp (-6)
  unfold sample_features
  rw [show analyze_keystroke_rhythm sampleSwitchy.keystroke_intervals = 0.95
      from rhythm_steady_eval,
    show calculate_focus_score sampleSwitchy.context_switches ((5 : ℝ) - 0)
        = Real.exp (-6) from focus_eval_down,
    calculate_consistency_score_short _ _ (by norm_num),
    show calculate_error_penalty sampleSwitchy.error_events = 0 from rfl,
    velocity_eval sampleSwitchy rfl rfl]
  exact rule_based_down

/-- The ending call's intensity stays at or below the default
threshold. -/
theorem down_not_in_flow :
    obsIsInFlow (stepCall (stepCall (engineNew 0) callUp).2 callDown).1
      = false := by
  rw [stepCall_none_in_flow _ _ up_ml_none, down_rule_value]
  rw [decide_eq_false_iff_not]
  have h1 := exp_neg_six_le_seventh
  have h2 := Real.exp_pos (-6 : ℝ)
  show ¬(effective_sensitivity callDown.prefs
    < 0.5025 + 0.25 * Real.exp (-6))
  rw [show (effective_sensitivity callDown.prefs : ℝ) = 0.7 from rfl]
  intro hcon
  linarith

/-- Witness for C4: a two-call crossing (up at t = 0 with intensity
0.7525 > 0.7, down at t = 5) yields one session of span 5. -/
theorem flow_session_accounting_witness :
    (okB (stepCall (engineNew 0) callUp).1 = true ∧
      (obsIsInFlow (stepCall (engineNew 0) callUp).1 = true ↔
        effective_sensitivity callUp.prefs
          < obsIntensity (stepCall (engineNew 0) callUp).1)) ∧
    ((engineNew 0).flow_start_time = none ∧
      obsIsInFlow (stepCall (engineNew 0) callUp).1 = true ∧
      obsIsInFlow
        (stepCall (runCalls (stepCall (engineNew 0) callUp).2 []).2
          callDown).1 = false ∧
      ((stepCall (runCalls (stepCall (engineNew 0) callUp).2 []).2
          callDown).2.flow_session_count
          = (engineNew 0).flow_session_count + 1 ∧
        (stepCall (runCalls (stepCall (engineNew 0) callUp).2 []).2
          callDown).2.total_flow_time
          = (engineNew 0).total_flow_time + (callDown.now - callUp.now) ∧
        (stepCall (runCalls (stepCall (engineNew 0) callUp).2 []).2
          callDown).2.flow_start_time = none ∧
        obsDuration (stepCall (runCalls (stepCall (engineNew 0) callUp).2
          []).2 callDown).1 = callDown.now - callUp.now ∧
        obsDuration (stepCall (engineNew 0) callUp).1 = 0)) := by
  have hok_up : okB (stepCall (engineNew 0) callUp).1 = true :=
    stepCall_ok_of_none _ _ rfl
  have hok_down : okB (stepCall (runCalls (stepCall (engineNew 0) callUp).2
      []).2 callDown).1 = true :=
    stepCall_ok_of_none _ _ up_ml_none
  have hin_down : obsIsInFlow (stepCall
      (runCalls (stepCall (engineNew 0) callUp).2 []).2 callDown).1
      = false := down_not_in_flow
  refine ⟨⟨hok_up, flow_session_accounting.1 _ _ hok_up⟩,
    rfl, up_in_flow, hin_down, ?_⟩
  exact flow_session_accounting.2 (engineNew 0) callUp [] callDown rfl
    hok_up up_in_flow
    (by
      intro r hr
      exact absurd hr (List.not_mem_nil r))
    hok_down hin_down

/-! ### C2: determinism of the combined intensity -/


/-- Focus score with 5 switches, 5 s elapsed: bare `exp (-1)`. -/
theorem focus_eval_fickle_five :
    calculate_focus_score 5 ((5 : ℝ) - 0) = Real.exp (-1) := by
  unfold calculate_focus_score focus_time_bonus
  rw [if_neg (by norm_num)]
  rw [show (-0.2 * ((5 : ℕ) : ℝ) : ℝ) = -1 by norm_num]
  rw [add_zero]
  exact min_eq_left ((Real.exp_le_exp.mpr (by norm_num)).trans
    (le_of_eq Real.exp_zero))

/-- Focus score with 5 switches, 30 s elapsed: `exp (-1)` plus the
saturated 0.2 bonus. -/
theorem focus_eval_fickle_thirty :
    calculate_focus_score 5 ((30 : ℝ) - 0) = Real.exp (-1) + 0.2 := by
  unfold calculate_focus_score focus_time_bonus
  rw [if_pos (by norm_num)]
  rw [show (-0.2 * ((5 : ℕ) : ℝ) : ℝ) = -1 by norm_num]
  rw [show ((30 : ℝ) - 0) / 60 = 0.5 by norm_num]
  rw [min_eq_right (by norm_num : (0.2 : ℝ) ≤ 0.5)]
  refine min_eq_left ?_
  have := exp_neg_one_le_half
  linarith

/-- Rule-based combination with a mid-range focus score `x`: the
weighted sum lands strictly between the damping and amplification
bands, so no adjustment or clamping applies. -/
theorem rule_based_mid (x : ℝ) (h0 : 0 < x) (h1 : x ≤ 0.7) :
    rule_based_prediction ⟨0.95, x, 0.5, 1 - 0, 0.7⟩
      = 0.5025 + 0.25 * x := by
  simp only [rule_based_prediction]
  split_ifs with ha hb
  · exfalso
    linarith
  · exfalso
    linarith
  · rw [max_eq_left (by linarith), min_eq_left (by linarith)]
    ring

/-- Intensity of the fickle sample analyzed 5 s after engine
creation. -/
theorem fickle_intensity_five :
    obsIntensity (stepCall (engineNew 0) ⟨sampleFickle, none, 5⟩).1
      = 0.5025 + 0.25 * Real.exp (-1) := by
  rw [stepCall_none_intensity _ _ rfl]
  show rule_based_prediction
    (sample_features [100, 100, 100] sampleFickle ((5 : ℝ) - 0))
    = 0.5025 + 0.25 * Real.exp (-1)
  unfold sample_features
  rw [show analyze_keystroke_rhythm sampleFickle.keystroke_intervals = 0.95
      from rhythm_steady_eval,
    show calculate_focus_score sampleFickle.context_switches ((5 : ℝ) - 0)
        = Real.exp (-1) from focus_eval_fickle_five,
    calculate_consistency_score_short _ _ (by norm_num),
    show calculate_error_penalty sampleFickle.error_events = 0 from rfl,
    velocity_eval sampleFickle rfl rfl]
  refine rule_based_mid _ (Real.exp_pos _) ?_
  have := exp_neg_one_le_half
  linarith

/-- Intensity of the same state and sample analyzed 30 s after engine
creation: the focus time bonus raises it by exactly 0.05. -/
theorem fickle_intensity_thirty :
    obsIntensity (stepCall (engineNew 0) ⟨sampleFickle, none, 30⟩).1
      = 0.5025 + 0.25 * (Real.exp (-1) + 0.2) := by
  rw [stepCall_none_intensity _ _ rfl]
  show rule_based_prediction
    (sample_features [100, 100, 100] sampleFickle ((30 : ℝ) - 0))
    = 0.5025 + 0.25 * (Real.exp (-1) + 0.2)
  unfold sample_features
  rw [show analyze_keystroke_rhythm sampleFickle.keystroke_intervals = 0.95
      from rhythm_steady_eval,
    show calculate_focus_score sampleFickle.context_switches ((30 : ℝ) - 0)
        = Real.exp (-1) + 0.2 from focus_eval_fickle_thirty,
    calculate_consistency_score_short _ _ (by norm_num),
    show calculate_error_penalty sampleFickle.error_events = 0 from rfl,
    velocity_eval sampleFickle rfl rfl]
  refine rule_based_mid _ (by positivity) ?_
  have := exp_neg_one_le_half
  linarith

/-- Claim C2 counterexample: the same analyzer state and the same
sample and preferences, analyzed at wall-clock instants 5 s and 30 s
after the recorded last-analysis time, produce combined intensities
exactly 0.05 apart — not within 0.01.  The elapsed-time focus bonus
makes the intensity depend on the instant of execution. -/
theorem intensity_instant_counterexample :
    obsIntensity (stepCall (engineNew 0) ⟨sampleFickle, none, 30⟩).1
      - obsIntensity (stepCall (engineNew 0) ⟨sampleFickle, none, 5⟩).1
      = 0.05 ∧
    ¬(|obsIntensity (stepCall (engineNew 0) ⟨sampleFickle, none, 5⟩).1
      - obsIntensity (stepCall (engineNew 0) ⟨sampleFickle, none, 30⟩).1|
      ≤ 0.01) := by
  rw [fickle_intensity_five, fickle_intensity_thirty]
  constructor
  · ring
  · rw [show (0.5025 + 0.25 * Real.exp (-1))
        - (0.5025 + 0.25 * (Real.exp (-1) + 0.2)) = -(0.05 : ℝ) by ring]
    rw [abs_neg, abs_of_nonneg (by norm_num : (0 : ℝ) ≤ 0.05)]
    norm_num


/-- Claim C2 as amended: two runs from identical analyzer state,
sample and preferences produce exactly the same combined intensity
whenever the elapsed time since the recorded last-analysis timestamp
is the same — equivalently, under any uniform shift of the recorded
instants and the execution instant (determinism holds relative to the
elapsed time, not absolutely in wall-clock time). -/
theorem intensity_time_shift_invariant (s : FlowDetectionEngine)
    (data : FlowStateData) (p : Option UserFlowPreferences) (now d : ℝ) :
    obsIntensity (analyze_flow_state (shift_engine s d) data p (now + d)).1
      = obsIntensity (analyze_flow_state s data p now).1 := by
  unfold analyze_flow_state
  have harg : (now + d)
      - (buffered_engine (shift_engine s d) data).last_analysis
      = now - (buffered_engine s data).last_analysis := by
    show (now + d) - (s.last_analysis + d) = now - s.last_analysis
    ring
  have hml : (buffered_engine (shift_engine s d) data).ml_engine
      = (buffered_engine s data).ml_engine := rfl
  have hkb : (buffered_engine (shift_engine s d) data).keystroke_buffer
      = (buffered_engine s data).keystroke_buffer := rfl
  rw [harg, hml, hkb]
  split
  · rfl
  · rfl

/-! ### C6: the focus score and its time bonus -/

/-- Claim C6 counterexample: the time bonus is already saturated at
20 s and 40 s of elapsed time, so the focus score does not grow
between them even though both lie below the claimed 60 s saturation
point (`min (t/60, 0.2)` reaches its cap at t = 12 s). -/
theorem focus_bonus_saturation_counterexample :
    (10 : ℝ) < 20 ∧ (20 : ℝ) < 40 ∧ (40 : ℝ) ≤ 60 ∧
    calculate_focus_score 10 20 = calculate_focus_score 10 40 := by
  have h20 : focus_time_bonus 20 = 0.2 := by
    unfold focus_time_bonus
    rw [if_pos (by norm_num)]
    rw [show (20 : ℝ) / 60 = 1 / 3 by norm_num]
    exact min_eq_right (by norm_num)
  have h40 : focus_time_bonus 40 = 0.2 := by
    unfold focus_time_bonus
    rw [if_pos (by norm_num)]
    rw [show (40 : ℝ) / 60 = 2 / 3 by norm_num]
    exact min_eq_right (by norm_num)
  refine ⟨by norm_num, by norm_num, by norm_num, ?_⟩
  unfold calculate_focus_score
  rw [h20, h40]

/-- Claim C6 as amended: the focus score is
`min (exp (-0.2·switches) + bonus t) 1` where the bonus is 0 up to
10 s and `min (t/60, 0.2)` beyond; the bonus grows strictly on
(10 s, 12 s] and saturates at 0.2 from t = 12 s on (not 60 s); with 10
switches and at most 10 s elapsed the focus score is exactly
`exp (-2)`. -/
theorem focus_bonus_amended :
    (∀ (s : ℕ) (t : ℝ), calculate_focus_score s t
        = min (Real.exp (-0.2 * s) + focus_time_bonus t) 1) ∧
    (∀ t : ℝ, t ≤ 10 → focus_time_bonus t = 0) ∧
    (∀ t : ℝ, 10 < t → focus_time_bonus t = min (t / 60) 0.2) ∧
    (∀ t1 t2 : ℝ, 10 < t1 → t1 < t2 → t2 ≤ 12 →
      focus_time_bonus t1 < focus_time_bonus t2) ∧
    (∀ t : ℝ, 12 ≤ t → focus_time_bonus t = 0.2) ∧
    (∀ t : ℝ, t ≤ 10 → calculate_focus_score 10 t = Real.exp (-2)) := by
  have hb0 : ∀ t : ℝ, t ≤ 10 → focus_time_bonus t = 0 := by
    intro t ht
    unfold focus_time_bonus
    rw [if_neg (not_lt.mpr ht)]
  have hbpos : ∀ t : ℝ, 10 < t → focus_time_bonus t = min (t / 60) 0.2 := by
    intro t ht
    unfold focus_time_bonus
    rw [if_pos ht]
  refine ⟨fun s t => rfl, hb0, hbpos, ?_, ?_, ?_⟩
  · intro t1 t2 h1 h12 h2
    rw [hbpos t1 h1, hbpos t2 (by linarith)]
    rw [min_eq_left (by rw [div_le_iff₀ (by norm_num : (0:ℝ) < 60)]; linarith),
      min_eq_left (by rw [div_le_iff₀ (by norm_num : (0:ℝ) < 60)]; linarith)]
    linarith
  · intro t ht
    rw [hbpos t (by linarith)]
    exact min_eq_right (by rw [le_div_iff₀ (by norm_num : (0:ℝ) < 60)]; linarith)
  · intro t ht
    unfold calculate_focus_score
    rw [hb0 t ht, add_zero]
    rw [show (-0.2 * ((10 : ℕ) : ℝ) : ℝ) = -2 by norm_num]
    exact min_eq_left ((Real.exp_le_exp.mpr (by norm_num)).trans
      (le_of_eq Real.exp_zero))

/-- Witness for the amended C6 at concrete elapsed times. -/
theorem focus_bonus_amended_witness :
    (calculate_focus_score 3 7
        = min (Real.exp (-0.2 * (3 : ℕ)) + focus_time_bonus 7) 1) ∧
    ((7 : ℝ) ≤ 10 ∧ focus_time_bonus 7 = 0) ∧
    ((10 : ℝ) < 11 ∧ focus_time_bonus 11 = min ((11 : ℝ) / 60) 0.2) ∧
    ((10 : ℝ) < 11 ∧ (11 : ℝ) < 11.5 ∧ (11.5 : ℝ) ≤ 12 ∧
      focus_time_bonus 11 < focus_time_bonus 11.5) ∧
    ((12 : ℝ) ≤ 30 ∧ focus_time_bonus 30 = 0.2) ∧
    ((7 : ℝ) ≤ 10 ∧ calculate_focus_score 10 7 = Real.exp (-2)) :=
  ⟨focus_bonus_amended.1 3 7,
   ⟨by norm_num, focus_bonus_amended.2.1 7 (by norm_num)⟩,
   ⟨by norm_num, focus_bonus_amended.2.2.1 11 (by norm_num)⟩,
   ⟨by norm_num, by norm_num, by norm_num,
     focus_bonus_amended.2.2.2.1 11 11.5 (by norm_num) (by norm_num)
       (by norm_num)⟩,
   ⟨by norm_num, focus_bonus_amended.2.2.2.2.1 30 (by norm_num)⟩,
   ⟨by norm_num, focus_bonus_amended.2.2.2.2.2 7 (by norm_num)⟩⟩

/-! ### C5: the rhythm score against its specified form -/



/-- Claim C5 counterexample: on the all-zero interval list `[0, 0, 0]`
(three intervals, mean 0, in no tier band) the claimed computation
yields the fall-through score 0.2, but the code returns 0 (its
zero-mean early return). -/
theorem rhythm_zero_mean_counterexample :
    analyze_keystroke_rhythm [0, 0, 0] = 0 ∧
    rhythm_score_claimed [0, 0, 0] = 0.2 ∧
    ¬(analyze_keystroke_rhythm [0, 0, 0] = rhythm_score_claimed [0, 0, 0]) := by
  have hmean : interval_mean [0, 0, 0] = 0 := by
    norm_num [interval_mean]
  have hcode : analyze_keystroke_rhythm [0, 0, 0] = 0 := by
    unfold analyze_keystroke_rhythm
    rw [hmean]
    norm_num
  have hclaim : rhythm_score_claimed [0, 0, 0] = 0.2 := by
    unfold rhythm_score_claimed
    rw [hmean]
    norm_num [rhythm_base, min_def]
  refine ⟨hcode, hclaim, ?_⟩
  rw [hcode, hclaim]
  norm_num

/-- The code's sustained bonus (guard `len > 20`) agrees with the
claimed `len ≥ 20` gate whenever the coefficient of variation is the
one computed from the list itself: at exactly 20 intervals the recent
window is the whole list, so the strict-improvement comparison is
vacuously false. -/
theorem rhythm_bonus_spec_eq (l : List ℕ) (h2 : 2 ≤ l.length)
    (hm : interval_mean l > 0) :
    rhythm_sustained_bonus l
        (Real.sqrt (interval_variance l) / interval_mean l)
      = if 20 ≤ l.length ∧
            calculate_coefficient_of_variation (l.drop (l.length - 20))
            < Real.sqrt (interval_variance l) / interval_mean l - 0.1
          then 0.1 else 0 := by
  unfold rhythm_sustained_bonus
  rcases lt_trichotomy l.length 20 with hl | hl | hl
  · rw [if_neg (by omega), if_neg (by rintro ⟨h, -⟩; omega)]
  · rw [if_neg (by omega)]
    rw [if_neg]
    rintro ⟨-, hcv⟩
    rw [hl, Nat.sub_self, List.drop_zero] at hcv
    have hcveq : calculate_coefficient_of_variation l
        = Real.sqrt (interval_variance l) / interval_mean l := by
      unfold calculate_coefficient_of_variation
      rw [if_neg (by omega), if_pos hm]
    rw [hcveq] at hcv
    linarith
  · rw [if_pos hl]
    by_cases hcv : calculate_coefficient_of_variation (l.drop (l.length - 20))
        < Real.sqrt (interval_variance l) / interval_mean l - 0.1
    · rw [if_pos hcv, if_pos ⟨by omega, hcv⟩]
    · rw [if_neg hcv, if_neg (by rintro ⟨-, h⟩; exact hcv h)]

/-- Claim C5 as amended: for every interval list the code's rhythm
score equals the claimed tiered-plus-bonus form, with the single
amendment that a zero mean yields 0; in particular the `≥ 20` bonus
gate of the claim is extensionally exact (at exactly 20 intervals the
comparison is vacuous). -/
theorem rhythm_matches_amended_spec (intervals : List ℕ) :
    analyze_keystroke_rhythm intervals = rhythm_score_amended intervals := by
  unfold analyze_keystroke_rhythm rhythm_score_amended
  by_cases h3 : intervals.length < 3
  · rw [if_pos h3, if_pos h3]
  · rw [if_neg h3, if_neg h3]
    by_cases hm : interval_mean intervals > 0
    · rw [if_pos hm, if_pos hm,
        rhythm_bonus_spec_eq intervals (by omega) hm]
    · rw [if_neg hm, if_neg hm]

/-! ### C3: the rule-based combiner's error term -/


/-- Claim C3, evaluated at the failing input: with component scores
rhythm 0.95, focus 1, consistency 0.5, error penalty 0 and velocity
0.7, the call site passes the features `[0.95, 1, 0.5, 1 − 0, 0.7]`;
the code's combiner re-inverts the fourth slot
(`(1.0 - error_penalty) * 0.10` in `rule_based_prediction`), so the
0.10 error weight multiplies `1 − (1 − 0) = 0` and the result is
0.7525, while the weighted sum the spec describes gives 0.8525,
amplified above 0.8 to 0.87875. -/
theorem error_term_inversion_eval :
    rule_based_prediction ⟨0.95, 1, 0.5, 1 - 0, 0.7⟩ = 0.7525 ∧
    rule_based_prediction_claimed ⟨0.95, 1, 0.5, 1 - 0, 0.7⟩ = 0.87875 ∧
    (0.7525 : ℝ) ≠ 0.87875 :=
  ⟨rule_based_up,
   by norm_num [rule_based_prediction_claimed, min_def, max_def],
   by norm_num⟩

end

end MindfulCode
